import Mathlib

/-!
Shallow embedding of the LoanOS backend (src/backend/app/main.py) in Lean 4.

The backend is an orchestration shim around three external collaborators:
a row-oriented session store (Supabase), a blob store (GCS) and a
generative-text capability (Vertex AI Gemini).  We embed the pure data
flow of the Python code: external collaborators become explicit function
parameters (capabilities), dictionaries become structures, the in-memory
session-context store becomes an association list, and the WebSocket
receive loop becomes a fold over a list of inbound messages.

Python string primitives (`strip`, `lower`, `capitalize`, `split`,
`startswith`, slicing) are modelled character-by-character on `String.data`,
matching Python semantics on the character level.
-/

namespace LoanOS

/-! ### Python string primitives -/

/-- Characters that Python `str.strip()` removes (the common whitespace set). -/
def isPySpace (c : Char) : Bool :=
  c = ' ' || c = '\t' || c = '\n' || c = '\r' || c = '\x0b' || c = '\x0c'

/-- Model of Python `s.strip()`. -/
def pyStrip (s : String) : String :=
  String.mk (((s.data.dropWhile isPySpace).reverse.dropWhile isPySpace).reverse)

/-- Model of Python `s.lower()`. -/
def pyLower (s : String) : String :=
  String.mk (s.data.map Char.toLower)

/-- Model of Python `s.capitalize()`: first character upper-cased, rest lowered. -/
def pyCapitalize (s : String) : String :=
  match s.data with
  | [] => s
  | c :: rest => String.mk (c.toUpper :: rest.map Char.toLower)

/-- Model of Python `s.startswith(pre)`. -/
def pyStartsWith (s pre : String) : Bool :=
  decide (s.data.take pre.data.length = pre.data)

/-- Model of Python slicing `s[:n]`. -/
def pyTake (s : String) (n : Nat) : String :=
  String.mk (s.data.take n)

/-- Helper for `pySplitDot`: accumulates the current chunk (reversed). -/
def splitDotAux : List Char → List Char → List (List Char)
  | [], acc => [acc.reverse]
  | c :: rest, acc =>
      if c = '.' then acc.reverse :: splitDotAux rest []
      else splitDotAux rest (c :: acc)

/-- Model of Python `s.split('.')`. Always returns a non-empty list. -/
def pySplitDot (s : String) : List String :=
  (splitDotAux s.data []).map String.mk

/-- Model of Python `s.split('.')[-1]` (the last chunk; `""` is unreachable
since `split` always yields at least one chunk). -/
def lastDotChunk (s : String) : String :=
  (pySplitDot s).getLastD ""

/-! ### Data model

Mirrors the dictionaries built in `main.py`.  `institution` and `ai_focus`
are read with `dict.get(key, default)` in the prompt assembler, so they are
`Option String` here; every other field is read with mandatory access. -/

/-- One conversation turn (`{timestamp, role, message}` dict in main.py). -/
structure Turn where
  timestamp : Nat
  role : String
  message : String
deriving Repr, DecidableEq

/-- One processed document (`{filename, content, type}` dict built at
lines 132-136 of main.py).  `content` is either inline decoded text, a
`gs://` reference, or `""` on fetch failure. -/
structure DocumentRef where
  filename : String
  content : String
  type : String
deriving Repr, DecidableEq

/-- One document summary (`{filename, summary, processed}` dict built at
lines 190-205 of main.py; the `error` detail string is dropped). -/
structure DocSummary where
  filename : String
  summary : String
  processed : Bool
deriving Repr, DecidableEq

/-- The in-memory session context dict built at lines 141-154 of main.py. -/
structure SessionContext where
  session_id : String
  user_id : String
  user_email : String
  loan_name : String
  user_role : String
  institution : Option String
  ai_focus : Option String
  language : String
  region : String
  documents : List DocumentRef
  document_summaries : List DocSummary
  conversations : List Turn
  created_at : String
deriving Repr, DecidableEq

/-- A document row as stored in the external session store
(`session_data["documents"]` entries, lines 126-131 of main.py). -/
structure DocMeta where
  filename : String
  gcs_bucket : String
  gcs_object_path : String
  contentType : String
deriving Repr, DecidableEq

/-- A `loan_sessions` row from the external session store. -/
structure SessionRow where
  user_id : String
  user_email : String
  loan_name : String
  user_role : String
  institution : Option String
  ai_focus : Option String
  language : String
  region : String
  documents : List DocMeta
  conversations : List Turn
  created_at : String
deriving Repr, DecidableEq

/-- An attachment handed to the generative capability
(`Part.from_uri(content, mime_type)` at line 413 of main.py). -/
structure Attachment where
  uri : String
  mime : String
deriving Repr, DecidableEq

/-- A fetched blob: `decoded = some text` when the bytes decode as UTF-8,
`none` when decoding raises `UnicodeDecodeError`. -/
structure Blob where
  decoded : Option String
deriving Repr, DecidableEq

/-! ### Document Fetcher (`download_document_from_gcs`, lines 344-376) -/

/-- Model of `download_document_from_gcs(bucket_name, object_path)`.
`storageConfigured` models `storage_client` being non-`None`; `fetch` models
`bucket.blob(path).download_as_bytes()`, with `.error` standing for any
raised exception (caught by the enclosing `try`, yielding `""`). -/
def download_document_from_gcs (storageConfigured : Bool)
    (fetch : String → String → Except String Blob)
    (bucket_name object_path : String) : String :=
  if !storageConfigured then ""
  else
    let file_extension := lastDotChunk (pyLower object_path)
    if file_extension = "pdf" ∨ file_extension = "xlsx" ∨ file_extension = "xls" then
      "gs://" ++ bucket_name ++ "/" ++ object_path
    else
      match fetch bucket_name object_path with
      | .error _ => ""
      | .ok blob =>
          match blob.decoded with
          | some text => text
          | none => "gs://" ++ bucket_name ++ "/" ++ object_path

/-! ### Prompt Assembler (the pure part of `generate_ai_response`, lines 388-443) -/

/-- The context preamble (lines 389-400).  `institution` and `ai_focus` are
read with `dict.get` defaults. -/
def headerSection (context : SessionContext) : String :=
  "You are LoanOS AI, an intelligent assistant specializing in loan analysis and documentation.\n\nContext:\n- Loan/Deal Name: "
    ++ context.loan_name
    ++ "\n- User Role: " ++ context.user_role
    ++ "\n- Institution: " ++ context.institution.getD "Not specified"
    ++ "\n- AI Focus: " ++ context.ai_focus.getD "General loan analysis"
    ++ "\n- Region: " ++ context.region
    ++ "\n- Language: " ++ context.language
    ++ "\n\nDocuments available:\n"

/-- The prompt line(s) contributed by one enumerated document
(lines 405-418): `gs://` contents are listed by filename only, inline text
over 10 characters is included as a snippet capped at 1000 characters
(always followed by `...`), anything else is filename only. -/
def docLine (idx : Nat) (doc : DocumentRef) : String :=
  let base := "\n" ++ toString idx ++ ". " ++ doc.filename
  if pyStartsWith doc.content "gs://" then
    base ++ " (File will be analyzed by AI)"
  else if doc.content ≠ "" ∧ doc.content.length > 10 then
    let snippet := if doc.content.length > 1000 then pyTake doc.content 1000 else doc.content
    base ++ "\n   Content: " ++ snippet ++ "..."
  else base

/-- The `for idx, doc in enumerate(documents, 1)` loop (lines 405-418):
accumulates the document section of the prompt and, for `gs://` contents,
the attachment list (`document_parts`). -/
def docsLoop : Nat → List DocumentRef → String × List Attachment
  | _, [] => ("", [])
  | idx, doc :: rest =>
      let tail := docsLoop (idx + 1) rest
      if pyStartsWith doc.content "gs://" then
        (docLine idx doc ++ tail.1, ⟨doc.content, doc.type⟩ :: tail.2)
      else
        (docLine idx doc ++ tail.1, tail.2)

/-- `context.get('conversations', [])[-6:]` (line 421): the last 6 turns. -/
def recentTurns (conversations : List Turn) : List Turn :=
  conversations.drop (conversations.length - 6)

/-- One history line `\n{role.capitalize()}: {message}` (line 427). -/
def historyLine (t : Turn) : String :=
  "\n" ++ pyCapitalize t.role ++ ": " ++ t.message

/-- The conversation-history section (lines 421-427); empty when there are
no turns (`if recent_conversations:`). -/
def historySection (conversations : List Turn) : String :=
  let recent := recentTurns conversations
  if recent.isEmpty then ""
  else "\n\nRecent conversation history:" ++ String.join (recent.map historyLine)

/-- The fixed instruction block plus the literal question (lines 429-443). -/
def instructionSection (context : SessionContext) (question : String) : String :=
  "\n\nInstructions:\n1. Analyze ALL provided documents to answer questions accurately\n2. For PDF/Excel files, carefully read and extract relevant information\n3. Focus on "
    ++ context.ai_focus.getD "general loan analysis"
    ++ " when relevant\n4. Consider the user\x27s role as " ++ context.user_role
    ++ "\n5. Use " ++ context.region
    ++ " regional standards and conventions\n6. If information is not found in the documents, say so clearly\n7. Keep responses concise (2-4 sentences) unless more detail is requested\n8. Use natural conversational language suitable for voice interaction\n\nUser Question: "
    ++ question
    ++ "\n\nProvide a brief, accurate answer based on the documents:"

/-- The full prompt assembly (lines 388-443): composed prompt string plus the
ordered attachment list handed to the generative capability. -/
def assemblePrompt (context : SessionContext) (question : String) :
    String × List Attachment :=
  let docs := docsLoop 1 context.documents
  (headerSection context ++ docs.1 ++ historySection context.conversations
      ++ instructionSection context question,
   docs.2)

/-! ### AI Responder (`generate_ai_response`, lines 379-470) -/

/-- The fixed-shape apology returned from the `except` block (line 470). -/
def apologyText (context : SessionContext) : String :=
  "I apologize, but I encountered an error processing your question. Please try rephrasing or ask something else about the "
    ++ context.loan_name ++ "."

/-- Model of `generate_ai_response(context, question)`.  `gcpConfigured`
models `GCP_PROJECT_ID` being set; `gen` models
`model.generate_content(content_parts, generation_config)`, with `.error`
standing for any raised exception (caught at line 466). -/
def generate_ai_response (gcpConfigured : Bool)
    (gen : String → List Attachment → Except String String)
    (context : SessionContext) (question : String) : String :=
  if !gcpConfigured then "AI service is not configured. Please contact support."
  else
    let assembled := assemblePrompt context question
    match gen assembled.1 assembled.2 with
    | .ok text => pyStrip text
    | .error _ => apologyText context

/-! ### Session Context Store (`ConnectionManager`, lines 47-72)

`session_contexts` is a dict keyed by session id; we model it as an
association list with dict-update semantics.  `active_connections` holds
WebSocket handles whose identity is irrelevant here, so we keep only its
key set. -/

/-- The session-context store (`manager.session_contexts`). -/
abbrev Store := List (String × SessionContext)

/-- Dict lookup `session_contexts.get(session_id)`. -/
def lookupStore : Store → String → Option SessionContext
  | [], _ => none
  | (k, v) :: rest, sid => if k = sid then some v else lookupStore rest sid

/-- Dict deletion `del session_contexts[session_id]` (no-op when absent,
matching the guarded `if session_id in ...` at lines 59-60). -/
def eraseStore : Store → String → Store
  | [], _ => []
  | (k, v) :: rest, sid =>
      if k = sid then eraseStore rest sid else (k, v) :: eraseStore rest sid

/-- Dict assignment `session_contexts[session_id] = context`
(`ConnectionManager.set_context`, lines 66-67). -/
def setStore (store : Store) (sid : String) (context : SessionContext) : Store :=
  (sid, context) :: eraseStore store sid

/-- In-place mutation of the context stored under `sid` (the WebSocket
handler appends to `context["conversations"]` of the stored dict). -/
def updateStore : Store → String → (SessionContext → SessionContext) → Store
  | [], _, _ => []
  | (k, v) :: rest, sid, f =>
      if k = sid then (k, f v) :: updateStore rest sid f
      else (k, v) :: updateStore rest sid f

/-- Key set of `active_connections` / ghost id sets, with set semantics. -/
def insertId (l : List String) (sid : String) : List String :=
  if sid ∈ l then l else sid :: l

/-- Removal from a key set. -/
def eraseId (l : List String) (sid : String) : List String :=
  l.filter (fun x => !(x = sid : Bool))

/-! ### Context-initialization endpoint (`POST /api/session/context`,
`initialize_session_context`, lines 88-234) -/

/-- External collaborators and configuration, passed explicitly. -/
structure Env where
  /-- `supabase` client is non-`None`. -/
  supabaseConfigured : Bool
  /-- `GCP_PROJECT_ID` is set (also gates `storage_client`). -/
  gcpConfigured : Bool
  /-- `supabase.table("loan_sessions").select("*").eq("id", sid)`:
  `none` models an absent row (`not response.data`). -/
  db : String → Option SessionRow
  /-- GCS blob fetch by bucket and object path. -/
  fetch : String → String → Except String Blob
  /-- `GenerativeModel("gemini-2.0-flash-exp")` construction in the
  pre-processing block; `.error` models the outer `except` at line 210. -/
  modelInit : Except String Unit
  /-- Per-document summarization call (lines 187-188); `.error` models the
  inner `except` at line 198. -/
  summarize : DocumentRef → Except String String
  /-- The generative call inside `generate_ai_response`. -/
  gen : String → List Attachment → Except String String
  /-- `supabase.table(...).update(...)` succeeding (lines 309-311). -/
  persistOk : Bool

/-- The `context_summary` object of the endpoint's 200 response.  The cached
path (lines 105-110) omits `documents_processed` and `document_summaries`,
hence the `Option` wrappers. -/
structure ContextSummary where
  loan_name : String
  user_role : String
  document_count : Nat
  region : String
  documents_processed : Option Nat
  document_summaries : Option (List DocSummary)
deriving Repr, DecidableEq

/-- Body of a 200 response from the endpoint. -/
structure InitResponse where
  success : Bool
  message : String
  context_summary : ContextSummary
deriving Repr, DecidableEq

/-- Endpoint result: 200 body or an `HTTPException(status, detail)`. -/
inductive InitResult where
  | ok (body : InitResponse)
  | httpError (status : Nat) (detail : String)
deriving Repr, DecidableEq

/-- Result of an endpoint call: response, resulting store, and the number of
external document-fetch plus summarization operations performed. -/
structure InitOutcome where
  result : InitResult
  store : Store
  work : Nat

/-- The document-download loop (lines 124-138): one
`download_document_from_gcs` call per row document.  The download model is
total, so the per-document `except` at line 137 never fires and every
document is appended. -/
def processDocuments (env : Env) (docs : List DocMeta) : List DocumentRef :=
  docs.map fun d =>
    { filename := d.filename
      content := download_document_from_gcs env.gcpConfigured env.fetch d.gcs_bucket d.gcs_object_path
      type := d.contentType }

/-- The per-document summarization loop body (lines 164-205). -/
def summarizeDocs (env : Env) (docs : List DocumentRef) : List DocSummary :=
  docs.map fun d =>
    match env.summarize d with
    | .ok s => { filename := d.filename, summary := pyStrip s, processed := true }
    | .error _ =>
        { filename := d.filename
          summary := "Document uploaded but summary unavailable"
          processed := false }

/-- The pre-processing block (lines 156-212): runs only when there are
documents and GCP is configured; a model-construction failure is caught by
the outer `except` and leaves the context without summaries. -/
def buildSummaries (env : Env) (docs : List DocumentRef) : List DocSummary :=
  if !docs.isEmpty && env.gcpConfigured then
    match env.modelInit with
    | .ok _ => summarizeDocs env docs
    | .error _ => []
  else []

/-- Number of summarization calls issued by the pre-processing block. -/
def summarizeWork (env : Env) (docs : List DocumentRef) : Nat :=
  if !docs.isEmpty && env.gcpConfigured then
    match env.modelInit with
    | .ok _ => docs.length
    | .error _ => 0
  else 0

/-- The context dict built at lines 141-154 plus the
`document_summaries` key added at line 208. -/
def buildContext (sid : String) (row : SessionRow) (docs : List DocumentRef)
    (summaries : List DocSummary) : SessionContext :=
  { session_id := sid
    user_id := row.user_id
    user_email := row.user_email
    loan_name := row.loan_name
    user_role := row.user_role
    institution := row.institution
    ai_focus := row.ai_focus
    language := row.language
    region := row.region
    documents := docs
    document_summaries := summaries
    conversations := row.conversations
    created_at := row.created_at }

/-- Model of `initialize_session_context(request)` (lines 88-234). -/
def initSessionContext (env : Env) (store : Store) (session_id : String) : InitOutcome :=
  if !env.supabaseConfigured then
    { result := .httpError 500 "Supabase not configured", store := store, work := 0 }
  else
    match lookupStore store session_id with
    | some existing =>
        { result := .ok
            { success := true
              message := "Session context already initialized (cached)"
              context_summary :=
                { loan_name := existing.loan_name
                  user_role := existing.user_role
                  document_count := existing.documents.length
                  region := existing.region
                  documents_processed := none
                  document_summaries := none } }
          store := store
          work := 0 }
    | none =>
        match env.db session_id with
        | none =>
            { result := .httpError 404 "Session not found", store := store, work := 0 }
        | some row =>
            let docs := processDocuments env row.documents
            let summaries := buildSummaries env docs
            let context := buildContext session_id row docs summaries
            { result := .ok
                { success := true
                  message := "Session context initialized and documents processed"
                  context_summary :=
                    { loan_name := context.loan_name
                      user_role := context.user_role
                      document_count := docs.length
                      region := context.region
                      documents_processed :=
                        some (summaries.filter (·.processed)).length
                      document_summaries := some summaries } }
              store := setStore store session_id context
              work := row.documents.length + summarizeWork env docs }

/-! ### Query endpoint (`POST /api/query`, `query_loan_context`,
lines 473-539) -/

/-- Result of the query endpoint. -/
inductive QueryResult where
  | ok (answer : String) (session_id : String)
  | httpError (status : Nat) (detail : String)
deriving Repr, DecidableEq

/-- The minimal fallback context built at lines 509-519 when the session is
not cached: document rows are used as-is (no download), so they carry no
`content`/`type` keys — reads of those keys fall back to `dict.get`
defaults (`''` and `'application/pdf'`). -/
def minimalContext (sid : String) (row : SessionRow) : SessionContext :=
  { session_id := sid
    user_id := ""
    user_email := ""
    loan_name := row.loan_name
    user_role := row.user_role
    institution := row.institution
    ai_focus := row.ai_focus
    language := row.language
    region := row.region
    documents := row.documents.map fun d =>
      { filename := d.filename, content := "", type := "application/pdf" }
    document_summaries := []
    conversations := row.conversations
    created_at := "" }

/-- Model of `query_loan_context(request)` (lines 473-539).  `session_id`
and `question` are `none` when the JSON body omits them.  The store is
threaded through and returned so that the theorem stating that this
endpoint never writes to the store is about an explicit output. -/
def query_loan_context (env : Env) (store : Store)
    (session_id question : Option String) : QueryResult × Store :=
  match session_id, question with
  | some sid, some q =>
      if sid = "" ∨ q = "" then
        (.httpError 400 "session_id and question are required", store)
      else
        match lookupStore store sid with
        | some context =>
            (.ok (generate_ai_response env.gcpConfigured env.gen context q) sid, store)
        | none =>
            if !env.supabaseConfigured then
              (.httpError 500 "Context not found and Supabase not configured", store)
            else
              match env.db sid with
              | none => (.httpError 404 "Session not found", store)
              | some row =>
                  (.ok (generate_ai_response env.gcpConfigured env.gen
                          (minimalContext sid row) q) sid, store)
  | _, _ => (.httpError 400 "session_id and question are required", store)

/-! ### WebSocket endpoint (`websocket_endpoint`, lines 237-341)

The receive loop is modelled as a fold over a list of inbound messages.
`datetime.utcnow()` is modelled by a monotone counter bumped once per call. -/

/-- Parsed inbound envelope (`message_data.get("type")` dispatch). -/
inductive InMsg where
  | question (text : String)
  | ping
  | other (msgType : String)
deriving Repr, DecidableEq

/-- Outbound typed envelopes sent with `manager.send_message`. -/
inductive OutMsg where
  | error (message : String)
  | system (message : String) (loan_name user_role : String) (document_count : Nat)
  | processing (message : String)
  | answer (question answer : String) (timestamp : Nat)
  | pong (timestamp : Nat)
deriving Repr, DecidableEq

/-- State carried by one connection's receive loop: the session context dict
(shared with the store), a mirror of the external store's `conversations`
column, and the `utcnow` counter. -/
structure WsState where
  context : SessionContext
  dbConversations : List Turn
  clock : Nat
deriving Repr, DecidableEq

/-- The `type == "question"` branch (lines 271-328). -/
def handleQuestion (env : Env) (st : WsState) (rawQuestion : String) :
    WsState × List OutMsg :=
  let question := pyStrip rawQuestion
  if question = "" then
    (st, [.error "Question cannot be empty"])
  else
    let answer := generate_ai_response env.gcpConfigured env.gen st.context question
    let userEntry : Turn := { timestamp := st.clock, role := "user", message := question }
    let assistantEntry : Turn :=
      { timestamp := st.clock + 1, role := "assistant", message := answer }
    let context2 :=
      { st.context with
          conversations := st.context.conversations ++ [userEntry, assistantEntry] }
    let db2 :=
      if env.supabaseConfigured && env.persistOk then context2.conversations
      else st.dbConversations
    ({ context := context2, dbConversations := db2, clock := st.clock + 3 },
     [.processing "Processing your question...",
      .answer question answer (st.clock + 2)])

/-- Dispatch on the inbound envelope type (lines 271-334); unrecognized
types are silently ignored. -/
def handleMessage (env : Env) (st : WsState) : InMsg → WsState × List OutMsg
  | .question t => handleQuestion env st t
  | .ping => ({ st with clock := st.clock + 1 }, [.pong st.clock])
  | .other _ => (st, [])

/-- The receive loop (lines 267-334) over a finite inbound message list,
collecting all outbound messages in send order. -/
def runLoop (env : Env) (st : WsState) : List InMsg → WsState × List OutMsg
  | [] => (st, [])
  | m :: rest =>
      let step := handleMessage env st m
      let tail := runLoop env step.1 rest
      (tail.1, step.2 ++ tail.2)

/-! ### Process-wide manager state and its operations -/

/-- The two maps owned by `ConnectionManager` plus a ghost set `initDone`
recording the ids whose context-initialization completed successfully and
has not been torn down since. -/
structure SysState where
  active_connections : List String
  session_contexts : Store
  initDone : List String

/-- Effect of one `POST /api/session/context` call on the manager state;
the ghost set records success. -/
def applyInit (env : Env) (s : SysState) (sid : String) : SysState :=
  let o := initSessionContext env s.session_contexts sid
  match o.result with
  | .ok _ =>
      { s with session_contexts := o.store, initDone := insertId s.initDone sid }
  | .httpError _ _ => { s with session_contexts := o.store }

/-- Effect of one `POST /api/query` call on the manager state (the endpoint
returns the store it was given). -/
def applyQuery (env : Env) (s : SysState) (sid question : Option String) : SysState :=
  { s with session_contexts := (query_loan_context env s.session_contexts sid question).2 }

/-- Entry of `websocket_endpoint` (lines 242-264): `manager.connect`
registers the connection unconditionally, then the context check either
sends a typed error and returns, or sends the welcome message. -/
def wsStart (s : SysState) (sid : String) : SysState × List OutMsg :=
  let s1 := { s with active_connections := insertId s.active_connections sid }
  match lookupStore s1.session_contexts sid with
  | none =>
      (s1, [.error "Session context not initialized. Please call /api/session/context first."])
  | some context =>
      (s1, [.system ("Connected to LoanOS AI for " ++ context.loan_name)
              context.loan_name context.user_role context.documents.length])

/-- Effect of one in-loop question on the stored context: the handler
appends to `context["conversations"]` of the dict held in the store. -/
def applyWsQuestion (env : Env) (s : SysState) (sid : String) (rawQuestion : String)
    (now : Nat) : SysState :=
  { s with
      session_contexts := updateStore s.session_contexts sid fun context =>
        let question := pyStrip rawQuestion
        if question = "" then context
        else
          let answer := generate_ai_response env.gcpConfigured env.gen context question
          { context with
              conversations := context.conversations ++
                [{ timestamp := now, role := "user", message := question },
                 { timestamp := now + 1, role := "assistant", message := answer }] } }

/-- `ConnectionManager.disconnect` (lines 56-60): removes the connection
entry and the session context; the ghost set is cleared in lockstep. -/
def disconnect (s : SysState) (sid : String) : SysState :=
  { active_connections := eraseId s.active_connections sid
    session_contexts := eraseStore s.session_contexts sid
    initDone := eraseId s.initDone sid }

/-- `POST /api/session/{id}/end` (lines 567-590): tears down channel and
context when a context exists, otherwise does nothing. -/
def end_session (s : SysState) (sid : String) : SysState :=
  match lookupStore s.session_contexts sid with
  | some _ => disconnect s sid
  | none => s

/-- All manager states reachable from the empty initial state through the
operations of the service. -/
inductive Reachable (env : Env) : SysState → Prop where
  | start : Reachable env ⟨[], [], []⟩
  | stepInit (s : SysState) (sid : String) :
      Reachable env s → Reachable env (applyInit env s sid)
  | stepQuery (s : SysState) (sid question : Option String) :
      Reachable env s → Reachable env (applyQuery env s sid question)
  | stepWsStart (s : SysState) (sid : String) :
      Reachable env s → Reachable env (wsStart s sid).1
  | stepWsQuestion (s : SysState) (sid rawQuestion : String) (now : Nat) :
      Reachable env s → Reachable env (applyWsQuestion env s sid rawQuestion now)
  | stepDisconnect (s : SysState) (sid : String) :
      Reachable env s → Reachable env (disconnect s sid)
  | stepEnd (s : SysState) (sid : String) :
      Reachable env s → Reachable env (end_session s sid)

/-! ### Specification predicates -/

/-- The store invariant: a session id has a context in the Session Context
Store exactly when its initialization completed successfully (and was not
torn down since), as recorded by the ghost set `initDone`. -/
def storeInv (s : SysState) : Prop :=
  ∀ sid, (lookupStore s.session_contexts sid).isSome = true ↔ sid ∈ s.initDone

/-- The outbound transcript expected for a list of questions: for each
question, one typed `processing` acknowledgment immediately followed by one
typed `answer` carrying that question, in question order. -/
def protocolTranscript : List String → List OutMsg → Prop
  | [], out => out = []
  | q :: qs, out =>
      ∃ a t rest,
        out = .processing "Processing your question..." :: .answer q a t :: rest
        ∧ protocolTranscript qs rest

/-- The conversation-log growth expected for a list of questions: a
user turn carrying the question then an assistant turn, each with its own
timestamp, repeated in question order. -/
def logPairs : List String → List Turn → Prop
  | [], ts => ts = []
  | q :: qs, ts =>
      ∃ a tu ta rest,
        ts = { timestamp := tu, role := "user", message := q }
              :: { timestamp := ta, role := "assistant", message := a } :: rest
        ∧ logPairs qs rest

/-! ### Concrete instances used to evaluate the model on closed inputs -/

/-- A concrete external-store row with one text document. -/
def row0 : SessionRow :=
  { user_id := "u1"
    user_email := "u@example.com"
    loan_name := "Project Alpha"
    user_role := "Analyst"
    institution := some "First Bank"
    ai_focus := some "credit risk"
    language := "English"
    region := "US"
    documents := [{ filename := "term_sheet.txt"
                    gcs_bucket := "loanos-bucket"
                    gcs_object_path := "term_sheet.txt"
                    contentType := "text/plain" }]
    conversations := []
    created_at := "2024-01-01" }

/-- A concrete environment where every external collaborator succeeds and
the row for session `"s1"` is `row0`. -/
def env0 : Env :=
  { supabaseConfigured := true
    gcpConfigured := true
    db := fun sid => if sid = "s1" then some row0 else none
    fetch := fun _ _ => .ok { decoded := some "Loan amount five million dollars." }
    modelInit := .ok ()
    summarize := fun _ => .ok "A one-page term sheet."
    gen := fun _ _ => .ok "The loan amount is five million dollars."
    persistOk := true }

/-- A concrete session context. -/
def ctx0 : SessionContext :=
  { session_id := "s1"
    user_id := "u1"
    user_email := "u@example.com"
    loan_name := "Project Alpha"
    user_role := "Analyst"
    institution := some "First Bank"
    ai_focus := some "credit risk"
    language := "English"
    region := "US"
    documents := [{ filename := "term_sheet.txt"
                    content := "Loan amount five million dollars."
                    type := "text/plain" }]
    document_summaries := [{ filename := "term_sheet.txt"
                             summary := "A one-page term sheet."
                             processed := true }]
    conversations := []
    created_at := "2024-01-01" }

/-- A context equal to `ctx0` on every field the prompt assembler reads,
differing in `session_id`, `user_id`, `user_email`, `document_summaries`
and `created_at`. -/
def ctx0' : SessionContext :=
  { ctx0 with
      session_id := "s2"
      user_id := "u2"
      user_email := "other@example.com"
      document_summaries := []
      created_at := "2025-05-05" }

/-- A document whose inline content is 1001 characters long. -/
def docLong : DocumentRef :=
  { filename := "big.txt"
    content := String.mk (List.replicate 1001 'x')
    type := "text/plain" }

/-- The `context_summary` of a 200 response, `none` on an error response. -/
def resultSummary : InitResult → Option ContextSummary
  | .ok b => some b.context_summary
  | .httpError _ _ => none

/-- A concrete WebSocket-loop state over `ctx0`. -/
def st0 : WsState :=
  { context := ctx0, dbConversations := [], clock := 0 }

/-! ### Store lemmas -/

theorem lookup_eraseStore (store : Store) (sid k : String) :
    lookupStore (eraseStore store sid) k = if k = sid then none else lookupStore store k := by
  induction store with
  | nil => simp [eraseStore, lookupStore]
  | cons kv rest ih =>
      obtain ⟨a, v⟩ := kv
      by_cases h1 : a = sid <;> by_cases h2 : k = sid <;> by_cases h3 : a = k <;>
        simp_all [eraseStore, lookupStore]

theorem lookup_setStore (store : Store) (sid k : String) (c : SessionContext) :
    lookupStore (setStore store sid c) k = if k = sid then some c else lookupStore store k := by
  by_cases h : sid = k
  · subst h
    simp [setStore, lookupStore, lookup_eraseStore]
  · have h2 : ¬ k = sid := fun hk => h hk.symm
    simp [setStore, lookupStore, lookup_eraseStore, h, h2]

theorem lookup_updateStore_isSome (store : Store) (sid k : String)
    (f : SessionContext → SessionContext) :
    (lookupStore (updateStore store sid f) k).isSome = (lookupStore store k).isSome := by
  induction store with
  | nil => rfl
  | cons kv rest ih =>
      obtain ⟨a, v⟩ := kv
      by_cases h1 : a = sid <;> by_cases h3 : a = k <;> by_cases h4 : sid = k <;>
        simp_all [updateStore, lookupStore]

theorem mem_insertId (l : List String) (sid k : String) :
    k ∈ insertId l sid ↔ k = sid ∨ k ∈ l := by
  by_cases h : sid ∈ l
  · simp [insertId, h]
    intro he
    subst he
    exact h
  · simp [insertId, h]

theorem mem_eraseId (l : List String) (sid k : String) :
    k ∈ eraseId l sid ↔ k ∈ l ∧ ¬ k = sid := by
  simp [eraseId]

theorem query_store_unchanged (env : Env) (store : Store)
    (session_id question : Option String) :
    (query_loan_context env store session_id question).2 = store := by
  unfold query_loan_context
  cases session_id with
  | none => rfl
  | some sid =>
      cases question with
      | none => rfl
      | some q =>
          dsimp only
          split
          · rfl
          · split
            · rfl
            · split
              · rfl
              · split <;> rfl

/-! ### Claim theorems -/

/-- C2: the AI Responder never propagates an error — if the generative
capability fails on every input, `generate_ai_response` returns the
fixed-shape apology referencing the loan name, and that apology is a
non-empty string. -/
theorem ai_responder_never_raises
    (gen : String → List Attachment → Except String String)
    (context : SessionContext) (question : String)
    (hfail : ∀ prompt atts, ∃ e, gen prompt atts = .error e) :
    generate_ai_response true gen context question = apologyText context
    ∧ apologyText context ≠ "" := by
  obtain ⟨e, he⟩ :=
    hfail (assemblePrompt context question).1 (assemblePrompt context question).2
  refine ⟨by simp [generate_ai_response, he], ?_⟩
  intro h0
  have h1 : 0 < (apologyText context).length := by
    have hdot : ("." : String).length = 1 := rfl
    simp [apologyText, String.length_append, hdot]
  rw [h0] at h1
  simp [String.length] at h1

/-- C5: Document Fetcher policy — with storage configured, a large-binary
extension (pdf/xlsx/xls) yields the `gs://` reference without fetching;
otherwise a fetched blob yields its decoded text when decoding succeeds,
the reference string when decoding fails, and any fetch error yields the
empty string. -/
theorem document_fetcher_policy
    (fetch : String → String → Except String Blob) (bucket_name object_path : String) :
    ((lastDotChunk (pyLower object_path) = "pdf"
        ∨ lastDotChunk (pyLower object_path) = "xlsx"
        ∨ lastDotChunk (pyLower object_path) = "xls") →
      download_document_from_gcs true fetch bucket_name object_path
        = "gs://" ++ bucket_name ++ "/" ++ object_path)
    ∧ (¬ (lastDotChunk (pyLower object_path) = "pdf"
        ∨ lastDotChunk (pyLower object_path) = "xlsx"
        ∨ lastDotChunk (pyLower object_path) = "xls") →
        (∀ blob text, fetch bucket_name object_path = .ok blob →
            blob.decoded = some text →
            download_document_from_gcs true fetch bucket_name object_path = text)
        ∧ (∀ blob, fetch bucket_name object_path = .ok blob →
            blob.decoded = none →
            download_document_from_gcs true fetch bucket_name object_path
              = "gs://" ++ bucket_name ++ "/" ++ object_path)
        ∧ (∀ e, fetch bucket_name object_path = .error e →
            download_document_from_gcs true fetch bucket_name object_path = "")) := by
  constructor
  · intro hext
    simp [download_document_from_gcs, hext]
  · intro hext
    refine ⟨?_, ?_, ?_⟩
    · intro blob text hf hd
      simp [download_document_from_gcs, hext, hf, hd]
    · intro blob hf hd
      simp [download_document_from_gcs, hext, hf, hd]
    · intro e hf
      simp [download_document_from_gcs, hext, hf]

/-- C7: prompt assembly is deterministic and depends only on the context
fields it reads (loan name, role, institution, focus, language, region,
documents, conversations) and the question — two contexts agreeing on
these produce the identical prompt string and attachment list. -/
theorem prompt_assembly_deterministic (c1 c2 : SessionContext) (q : String)
    (h : (c1.loan_name, c1.user_role, c1.institution, c1.ai_focus, c1.language,
            c1.region, c1.documents, c1.conversations)
       = (c2.loan_name, c2.user_role, c2.institution, c2.ai_focus, c2.language,
            c2.region, c2.documents, c2.conversations)) :
    assemblePrompt c1 q = assemblePrompt c2 q := by
  cases c1
  cases c2
  simp only [Prod.mk.injEq] at h
  obtain ⟨h1, h2, h3, h4, h5, h6, h7, h8⟩ := h
  subst h1 h2 h3 h4 h5 h6 h7 h8
  rfl

/-- C8: snippet bounding — for a non-reference document, inline content
longer than 1000 characters contributes exactly its first 1000 characters
plus the `...` marker (never the full content), and content of length at
most 10 is omitted entirely from the prompt line. -/
theorem doc_snippet_bounded (idx : Nat) (doc : DocumentRef)
    (hgs : pyStartsWith doc.content "gs://" = false) :
    (doc.content.length > 1000 →
        docLine idx doc
          = "\n" ++ toString idx ++ ". " ++ doc.filename ++ "\n   Content: "
              ++ pyTake doc.content 1000 ++ "..."
        ∧ (pyTake doc.content 1000).length = 1000
        ∧ pyTake doc.content 1000 ≠ doc.content)
    ∧ (doc.content.length ≤ 10 →
        docLine idx doc = "\n" ++ toString idx ++ ". " ++ doc.filename) := by
  have hTakeLen : ∀ (s : String) (n : Nat), (pyTake s n).length = min n s.length := by
    intro s n
    show (s.data.take n).length = min n s.data.length
    exact List.length_take n s.data
  constructor
  · intro hlong
    have hne : doc.content ≠ "" := by
      intro h0
      rw [h0] at hlong
      simp [String.length] at hlong
    have h10 : doc.content.length > 10 := by omega
    have hmin : (pyTake doc.content 1000).length = 1000 := by
      rw [hTakeLen]; omega
    refine ⟨?_, hmin, ?_⟩
    · simp [docLine, hgs, hne, h10, hlong]
    · intro heq
      have := congrArg String.length heq
      rw [hmin] at this
      omega
  · intro hshort
    have hn10 : ¬ (doc.content ≠ "" ∧ doc.content.length > 10) := by
      rintro ⟨-, hgt⟩; omega
    simp [docLine, hgs, hn10]

/-- C9: history window — the prompt assembler folds in at most the last 6
conversation turns: the selected window has length ≤ 6, is a suffix of the
full log, and the assembled prompt is unchanged when the log is replaced by
that window. -/
theorem history_window (context : SessionContext) (question : String) :
    (recentTurns context.conversations).length ≤ 6
    ∧ List.IsSuffix (recentTurns context.conversations) context.conversations
    ∧ assemblePrompt context question
        = assemblePrompt
            { context with conversations := recentTurns context.conversations } question := by
  have hidem : recentTurns (recentTurns context.conversations)
      = recentTurns context.conversations := by
    unfold recentTurns
    rw [List.length_drop]
    have h : context.conversations.length
        - (context.conversations.length - 6) - 6 = 0 := by omega
    rw [h, List.drop_zero]
  refine ⟨?_, ?_, ?_⟩
  · simp [recentTurns, List.length_drop]
    omega
  · exact List.drop_suffix _ _
  · cases context
    simp [assemblePrompt, historySection, headerSection, instructionSection, hidem]

/-- C1 (amended): initialization is idempotent in the work performed — when
a first call freshly initializes a session, a second call for the same id
performs zero document-fetch/summarization operations, leaves the store
unchanged, and returns a 200 summary agreeing with the first call on
`loan_name`, `user_role`, `document_count` and `region`; but the cached
response omits `documents_processed` and `document_summaries` instead of
repeating them. -/
theorem init_idempotent_cached (env : Env) (store : Store) (sid : String)
    (row : SessionRow)
    (hconf : env.supabaseConfigured = true)
    (hmiss : lookupStore store sid = none)
    (hrow : env.db sid = some row) :
    (initSessionContext env (initSessionContext env store sid).store sid).work = 0
    ∧ (initSessionContext env (initSessionContext env store sid).store sid).store
        = (initSessionContext env store sid).store
    ∧ ∃ b1 b2 : InitResponse,
        (initSessionContext env store sid).result = .ok b1
        ∧ (initSessionContext env (initSessionContext env store sid).store sid).result = .ok b2
        ∧ b2.context_summary.loan_name = b1.context_summary.loan_name
        ∧ b2.context_summary.user_role = b1.context_summary.user_role
        ∧ b2.context_summary.document_count = b1.context_summary.document_count
        ∧ b2.context_summary.region = b1.context_summary.region
        ∧ b2.context_summary.documents_processed = none
        ∧ b2.context_summary.document_summaries = none := by
  simp [initSessionContext, hconf, hmiss, hrow, lookup_setStore, buildContext,
    processDocuments]

/-- C6 (amended): endpoint status contract — 500 when the external store is
unconfigured, 404 when the session row is absent and no context is cached,
200 with the full six-field summary on fresh initialization, and 200 with
only `loan_name`, `user_role`, `document_count`, `region` (no
`documents_processed`, no `document_summaries`) on a cache hit. -/
theorem init_endpoint_contract (env : Env) (store : Store) (sid : String) :
    (env.supabaseConfigured = false →
      (initSessionContext env store sid).result = .httpError 500 "Supabase not configured")
    ∧ (env.supabaseConfigured = true → lookupStore store sid = none → env.db sid = none →
      (initSessionContext env store sid).result = .httpError 404 "Session not found")
    ∧ (env.supabaseConfigured = true → ∀ c, lookupStore store sid = some c →
      (initSessionContext env store sid).result = .ok
        { success := true
          message := "Session context already initialized (cached)"
          context_summary :=
            { loan_name := c.loan_name
              user_role := c.user_role
              document_count := c.documents.length
              region := c.region
              documents_processed := none
              document_summaries := none } })
    ∧ (env.supabaseConfigured = true → lookupStore store sid = none →
        ∀ row, env.db sid = some row →
      ∃ b, (initSessionContext env store sid).result = .ok b
        ∧ b.success = true
        ∧ b.context_summary.documents_processed.isSome = true
        ∧ b.context_summary.document_summaries.isSome = true) := by
  refine ⟨?_, ?_, ?_, ?_⟩
  · intro hconf
    simp [initSessionContext, hconf]
  · intro hconf hmiss hdb
    simp [initSessionContext, hconf, hmiss, hdb]
  · intro hconf c hcached
    simp [initSessionContext, hconf, hcached]
  · intro hconf hmiss row hrow
    simp [initSessionContext, hconf, hmiss, hrow]

/-- C10: connecting the realtime channel for a session with no stored
context registers the connection, sends one typed error message, and
returns without cleanup — the id stays in the active-connection table
while remaining absent from the context store. -/
theorem ws_missing_context_leaks_connection (s : SysState) (sid : String)
    (h : lookupStore s.session_contexts sid = none) :
    (wsStart s sid).1.active_connections = insertId s.active_connections sid
    ∧ sid ∈ (wsStart s sid).1.active_connections
    ∧ (wsStart s sid).1.session_contexts = s.session_contexts
    ∧ lookupStore (wsStart s sid).1.session_contexts sid = none
    ∧ (wsStart s sid).2
        = [.error "Session context not initialized. Please call /api/session/context first."] := by
  refine ⟨by simp [wsStart, h], ?_, by simp [wsStart, h], by simp [wsStart, h], by simp [wsStart, h]⟩
  simp [wsStart, h, mem_insertId]

/-! ### Reachability lemmas for the store invariant -/

theorem wsStart_state (s : SysState) (sid : String) :
    (wsStart s sid).1 = { s with active_connections := insertId s.active_connections sid } := by
  unfold wsStart
  dsimp only
  split <;> rfl

theorem storeInv_disconnect (s : SysState) (sid : String) (h : storeInv s) :
    storeInv (disconnect s sid) := by
  intro k
  simp only [disconnect, lookup_eraseStore, mem_eraseId]
  by_cases hk : k = sid <;> simp [hk, h k]

theorem reachable_storeInv (env : Env) (s : SysState) (h : Reachable env s) :
    storeInv s := by
  induction h with
  | start => intro sid; simp [lookupStore]
  | stepInit s sid hr ih =>
      cases hconf : env.supabaseConfigured with
      | false =>
          have : applyInit env s sid = { s with session_contexts := s.session_contexts } := by
            simp [applyInit, initSessionContext, hconf]
          rw [this]
          exact ih
      | true =>
          cases hl : lookupStore s.session_contexts sid with
          | some c =>
              have : applyInit env s sid
                  = { s with initDone := insertId s.initDone sid } := by
                simp [applyInit, initSessionContext, hconf, hl]
              rw [this]
              intro k
              by_cases hk : k = sid
              · subst hk
                simp [hl, mem_insertId]
              · simp only [mem_insertId]
                simp [hk, ih k]
          | none =>
              cases hd : env.db sid with
              | none =>
                  have : applyInit env s sid = { s with session_contexts := s.session_contexts } := by
                    simp [applyInit, initSessionContext, hconf, hl, hd]
                  rw [this]
                  exact ih
              | some row =>
                  have : applyInit env s sid
                      = { s with
                            session_contexts := setStore s.session_contexts sid
                              (buildContext sid row (processDocuments env row.documents)
                                (buildSummaries env (processDocuments env row.documents)))
                            initDone := insertId s.initDone sid } := by
                    simp [applyInit, initSessionContext, hconf, hl, hd]
                  rw [this]
                  intro k
                  by_cases hk : k = sid
                  · subst hk
                    simp [lookup_setStore, mem_insertId]
                  · simp only [lookup_setStore, mem_insertId]
                    simp [hk, ih k]
  | stepQuery s sid question hr ih =>
      have : applyQuery env s sid question = { s with session_contexts := s.session_contexts } := by
        simp [applyQuery, query_store_unchanged]
      rw [this]
      exact ih
  | stepWsStart s sid hr ih =>
      rw [wsStart_state]
      exact ih
  | stepWsQuestion s sid rawQuestion now hr ih =>
      intro k
      simp only [applyWsQuestion, lookup_updateStore_isSome]
      exact ih k
  | stepDisconnect s sid hr ih =>
      exact storeInv_disconnect s sid ih
  | stepEnd s sid hr ih =>
      cases hl : lookupStore s.session_contexts sid with
      | some c =>
          have : end_session s sid = disconnect s sid := by
            simp [end_session, hl]
          rw [this]
          exact storeInv_disconnect s sid ih
      | none =>
          have : end_session s sid = s := by
            simp [end_session, hl]
          rw [this]
          exact ih

/-- C3: store invariant — at every reachable manager state a session id has
a context in the Session Context Store exactly when its initialization
completed successfully and was not torn down; a failed initialization call
returns the store unchanged; and the query endpoint always returns the
store it was given (its fallback minimal context is never inserted). -/
theorem session_store_invariant (env : Env) (s : SysState) (h : Reachable env s) :
    storeInv s
    ∧ (∀ store sid status detail,
        (initSessionContext env store sid).result = .httpError status detail →
        (initSessionContext env store sid).store = store)
    ∧ (∀ (store : Store) (sid question : Option String),
        (query_loan_context env store sid question).2 = store) := by
  refine ⟨reachable_storeInv env s h, ?_,
    fun store sid q => query_store_unchanged env store sid q⟩
  intro store sid status detail hres
  by_cases hconf : env.supabaseConfigured = true
  · cases hl : lookupStore store sid with
    | some c => simp [initSessionContext, hconf, hl] at hres
    | none =>
        cases hd : env.db sid with
        | none => simp [initSessionContext, hconf, hl, hd]
        | some row => simp [initSessionContext, hconf, hl, hd] at hres
  · have hconf' : env.supabaseConfigured = false := by
      cases hc2 : env.supabaseConfigured
      · rfl
      · exact absurd hc2 hconf
    simp [initSessionContext, hconf']

/-! ### WebSocket loop lemmas -/

theorem handleQuestion_parts (e : Env) (st : WsState) (q : String) :
    (handleQuestion e st q).1.context
      = (if pyStrip q = "" then st.context
         else { st.context with conversations := st.context.conversations ++
             [{ timestamp := st.clock, role := "user", message := pyStrip q },
              { timestamp := st.clock + 1, role := "assistant",
                message := generate_ai_response e.gcpConfigured e.gen st.context (pyStrip q) }] })
    ∧ (handleQuestion e st q).1.clock
      = (if pyStrip q = "" then st.clock else st.clock + 3)
    ∧ (handleQuestion e st q).2
      = (if pyStrip q = "" then [.error "Question cannot be empty"]
         else [.processing "Processing your question...",
               .answer (pyStrip q)
                 (generate_ai_response e.gcpConfigured e.gen st.context (pyStrip q))
                 (st.clock + 2)]) := by
  by_cases hq : pyStrip q = "" <;> simp [handleQuestion, hq]

theorem runLoop_questions (env : Env) (qs : List String) :
    ∀ st : WsState, (∀ q ∈ qs, pyStrip q = q ∧ q ≠ "") →
      protocolTranscript qs (runLoop env st (qs.map InMsg.question)).2
      ∧ ∃ appended,
          (runLoop env st (qs.map InMsg.question)).1.context.conversations
            = st.context.conversations ++ appended
          ∧ appended.length = 2 * qs.length
          ∧ logPairs qs appended := by
  induction qs with
  | nil =>
      intro st h
      exact ⟨rfl, [], by simp [runLoop], by simp, rfl⟩
  | cons q qs ih =>
      intro st h
      have hq := h q (List.mem_cons_self q qs)
      have hqs : ∀ q' ∈ qs, pyStrip q' = q' ∧ q' ≠ "" :=
        fun q' hq' => h q' (List.mem_cons_of_mem q hq')
      obtain ⟨hctx, hclk, hout⟩ := handleQuestion_parts env st q
      rw [hq.1, if_neg hq.2] at hctx hout
      obtain ⟨htr, appended, happ, hlen, hlog⟩ := ih (handleQuestion env st q).1 hqs
      simp only [List.map_cons, runLoop, handleMessage]
      constructor
      · refine ⟨generate_ai_response env.gcpConfigured env.gen st.context q, st.clock + 2,
          (runLoop env (handleQuestion env st q).1 (qs.map InMsg.question)).2, ?_, htr⟩
        rw [hout]
        simp
      · refine ⟨{ timestamp := st.clock, role := "user", message := q }
            :: { timestamp := st.clock + 1, role := "assistant",
                 message := generate_ai_response env.gcpConfigured env.gen st.context q }
            :: appended, ?_, ?_, ?_⟩
        · rw [happ, hctx]
          simp
        · simp at hlen ⊢
          omega
        · exact ⟨generate_ai_response env.gcpConfigured env.gen st.context q,
            st.clock, st.clock + 1, appended, rfl, hlog⟩

theorem runLoop_persist_independent (env : Env) (b1 b2 : Bool) (msgs : List InMsg) :
    ∀ st1 st2 : WsState, st1.context = st2.context → st1.clock = st2.clock →
      (runLoop { env with persistOk := b1 } st1 msgs).1.context
        = (runLoop { env with persistOk := b2 } st2 msgs).1.context
      ∧ (runLoop { env with persistOk := b1 } st1 msgs).1.clock
        = (runLoop { env with persistOk := b2 } st2 msgs).1.clock
      ∧ (runLoop { env with persistOk := b1 } st1 msgs).2
        = (runLoop { env with persistOk := b2 } st2 msgs).2 := by
  induction msgs with
  | nil =>
      intro st1 st2 hc hk
      exact ⟨hc, hk, rfl⟩
  | cons m rest ih =>
      intro st1 st2 hc hk
      cases m with
      | question t =>
          obtain ⟨hc1, hk1, ho1⟩ := handleQuestion_parts { env with persistOk := b1 } st1 t
          obtain ⟨hc2, hk2, ho2⟩ := handleQuestion_parts { env with persistOk := b2 } st2 t
          simp only [runLoop, handleMessage]
          obtain ⟨h1, h2, h3⟩ := ih
            (handleQuestion { env with persistOk := b1 } st1 t).1
            (handleQuestion { env with persistOk := b2 } st2 t).1
            (by rw [hc1, hc2]; simp [hc, hk])
            (by rw [hk1, hk2, hk])
          refine ⟨h1, h2, ?_⟩
          rw [h3, ho1, ho2]
          simp [hc, hk]
      | ping =>
          simp only [runLoop, handleMessage]
          obtain ⟨h1, h2, h3⟩ := ih
            { st1 with clock := st1.clock + 1 } { st2 with clock := st2.clock + 1 }
            (by simpa using hc) (by simpa using hk)
          exact ⟨h1, h2, by rw [h3, hk]⟩
      | other mt =>
          simp only [runLoop, handleMessage]
          obtain ⟨h1, h2, h3⟩ := ih st1 st2 hc hk
          exact ⟨h1, h2, by rw [h3]⟩

/-- C4: question-handling contract — for a sequence of non-empty trimmed
questions on one channel, the handler emits, per question in order, one
typed `processing` then one typed `answer` message carrying the question,
the answer and a timestamp; the conversation log grows by exactly two
individually-timestamped turns per question (user then assistant, in
order); and the in-memory log and outbound transcript are identical
whether or not external persistence succeeds. -/
theorem ws_question_contract (env : Env) (st : WsState) (qs : List String)
    (h : ∀ q ∈ qs, pyStrip q = q ∧ q ≠ "") :
    protocolTranscript qs (runLoop env st (qs.map InMsg.question)).2
    ∧ (∃ appended,
        (runLoop env st (qs.map InMsg.question)).1.context.conversations
          = st.context.conversations ++ appended
        ∧ appended.length = 2 * qs.length
        ∧ logPairs qs appended)
    ∧ (runLoop { env with persistOk := false } st (qs.map InMsg.question)).1.context
        = (runLoop { env with persistOk := true } st (qs.map InMsg.question)).1.context
    ∧ (runLoop { env with persistOk := false } st (qs.map InMsg.question)).2
        = (runLoop { env with persistOk := true } st (qs.map InMsg.question)).2 := by
  obtain ⟨h1, h2⟩ := runLoop_questions env qs st h
  obtain ⟨h3, h4, h5⟩ :=
    runLoop_persist_independent env false true (qs.map InMsg.question) st st rfl rfl
  exact ⟨h1, h2, h3, h5⟩

/-! ### Counterexamples and witnesses on concrete inputs -/

/-- C1 counterexample: with a concrete fully-working environment, the
second initialization call for session `"s1"` performs zero external
fetch/summarization operations, yet its 200 context summary is not
field-identical to the first call's — the claim's "identical fields" part
fails on the code. -/
theorem init_second_summary_differs :
    (initSessionContext env0 (initSessionContext env0 [] "s1").store "s1").work = 0
    ∧ resultSummary
        (initSessionContext env0 (initSessionContext env0 [] "s1").store "s1").result
      ≠ resultSummary (initSessionContext env0 [] "s1").result := by
  constructor
  · decide
  · decide

/-- C1 witness: the amended idempotence theorem evaluated at the concrete
environment `env0`, empty store and session `"s1"`. -/
theorem init_idempotent_cached_witness :
    env0.supabaseConfigured = true
    ∧ lookupStore [] "s1" = none
    ∧ env0.db "s1" = some row0
    ∧ ((initSessionContext env0 (initSessionContext env0 [] "s1").store "s1").work = 0
       ∧ (initSessionContext env0 (initSessionContext env0 [] "s1").store "s1").store
           = (initSessionContext env0 [] "s1").store
       ∧ ∃ b1 b2 : InitResponse,
           (initSessionContext env0 [] "s1").result = .ok b1
           ∧ (initSessionContext env0 (initSessionContext env0 [] "s1").store "s1").result
               = .ok b2
           ∧ b2.context_summary.loan_name = b1.context_summary.loan_name
           ∧ b2.context_summary.user_role = b1.context_summary.user_role
           ∧ b2.context_summary.document_count = b1.context_summary.document_count
           ∧ b2.context_summary.region = b1.context_summary.region
           ∧ b2.context_summary.documents_processed = none
           ∧ b2.context_summary.document_summaries = none) :=
  ⟨rfl, rfl, by decide,
    init_idempotent_cached env0 [] "s1" row0 rfl rfl (by decide)⟩

/-- C6 counterexample: a cache-hit call returns HTTP 200 whose
`context_summary` carries no `documents_processed` and no
`document_summaries` — the claim's six-field body is not what the cached
path returns. -/
theorem init_cached_missing_fields :
    (initSessionContext env0 [("s1", ctx0)] "s1").result
      = .ok { success := true
              message := "Session context already initialized (cached)"
              context_summary :=
                { loan_name := "Project Alpha"
                  user_role := "Analyst"
                  document_count := 1
                  region := "US"
                  documents_processed := none
                  document_summaries := none } } := by
  decide

/-- C6 witness: the amended endpoint contract evaluated at a concrete
missing session id (the 404 branch). -/
theorem init_endpoint_contract_witness :
    env0.supabaseConfigured = true
    ∧ lookupStore [] "missing" = none
    ∧ env0.db "missing" = none
    ∧ (initSessionContext env0 [] "missing").result = .httpError 404 "Session not found" :=
  ⟨rfl, rfl, by decide,
    (init_endpoint_contract env0 [] "missing").2.1 rfl rfl (by decide)⟩

/-- C2 witness: a capability that always fails, evaluated on `ctx0`. -/
theorem ai_responder_never_raises_witness :
    generate_ai_response true (fun _ _ => .error "quota exceeded") ctx0 "What is the amount?"
      = apologyText ctx0
    ∧ apologyText ctx0 ≠ "" :=
  ai_responder_never_raises (fun _ _ => .error "quota exceeded") ctx0 "What is the amount?"
    (fun _ _ => ⟨"quota exceeded", rfl⟩)

/-- C3 witness: the store invariant evaluated at the reachable state
obtained by one successful initialization of session `"s1"`. -/
theorem session_store_invariant_witness :
    Reachable env0 (applyInit env0 ⟨[], [], []⟩ "s1")
    ∧ ((lookupStore (applyInit env0 ⟨[], [], []⟩ "s1").session_contexts "s1").isSome = true
        ↔ "s1" ∈ (applyInit env0 ⟨[], [], []⟩ "s1").initDone) :=
  ⟨Reachable.stepInit _ _ Reachable.start,
    (session_store_invariant env0 _ (Reachable.stepInit _ _ Reachable.start)).1 "s1"⟩

/-- C4 witness: the question contract evaluated on one concrete non-empty
question over `st0`. -/
theorem ws_question_contract_witness :
    (pyStrip "What is the rate?" = "What is the rate?" ∧ "What is the rate?" ≠ "")
    ∧ protocolTranscript ["What is the rate?"]
        (runLoop env0 st0 (["What is the rate?"].map InMsg.question)).2 := by
  have h : ∀ q ∈ ["What is the rate?"], pyStrip q = q ∧ q ≠ "" := by decide
  exact ⟨h "What is the rate?" (by simp),
    (ws_question_contract env0 st0 ["What is the rate?"] h).1⟩

/-- C5 witness: a PDF path yields the `gs://` reference even when fetching
would fail. -/
theorem document_fetcher_policy_witness :
    (lastDotChunk (pyLower "Term_Sheet.PDF") = "pdf"
      ∨ lastDotChunk (pyLower "Term_Sheet.PDF") = "xlsx"
      ∨ lastDotChunk (pyLower "Term_Sheet.PDF") = "xls")
    ∧ download_document_from_gcs true (fun _ _ => .error "network down")
        "loanos-bucket" "Term_Sheet.PDF"
      = "gs://" ++ "loanos-bucket" ++ "/" ++ "Term_Sheet.PDF" :=
  ⟨by decide,
    (document_fetcher_policy (fun _ _ => .error "network down")
      "loanos-bucket" "Term_Sheet.PDF").1 (by decide)⟩

/-- C7 witness: two contexts differing only in fields the assembler does
not read produce the identical prompt and attachment list. -/
theorem prompt_assembly_deterministic_witness :
    ((ctx0.loan_name, ctx0.user_role, ctx0.institution, ctx0.ai_focus, ctx0.language,
        ctx0.region, ctx0.documents, ctx0.conversations)
      = (ctx0'.loan_name, ctx0'.user_role, ctx0'.institution, ctx0'.ai_focus, ctx0'.language,
          ctx0'.region, ctx0'.documents, ctx0'.conversations))
    ∧ assemblePrompt ctx0 "What is the rate?" = assemblePrompt ctx0' "What is the rate?" :=
  ⟨rfl, prompt_assembly_deterministic ctx0 ctx0' "What is the rate?" rfl⟩

/-- C8 witness: the bounding theorem evaluated on a concrete 1001-character
document. -/
theorem doc_snippet_bounded_witness :
    pyStartsWith docLong.content "gs://" = false
    ∧ (docLine 7 docLong
        = "\n" ++ toString 7 ++ ". " ++ docLong.filename ++ "\n   Content: "
            ++ pyTake docLong.content 1000 ++ "..."
      ∧ (pyTake docLong.content 1000).length = 1000
      ∧ pyTake docLong.content 1000 ≠ docLong.content) := by
  have hgs : pyStartsWith docLong.content "gs://" = false := by decide
  have hlen : docLong.content.length > 1000 := by
    show 1000 < (List.replicate 1001 'x').length
    rw [List.length_replicate]
    omega
  exact ⟨hgs, (doc_snippet_bounded 7 docLong hgs).1 hlen⟩

/-- C10 witness: connecting for session `"s1"` on the empty manager state
leaves the connection registered with no context stored. -/
theorem ws_missing_context_leaks_connection_witness :
    lookupStore (SysState.mk [] [] []).session_contexts "s1" = none
    ∧ ((wsStart ⟨[], [], []⟩ "s1").1.active_connections
          = insertId (SysState.mk [] [] []).active_connections "s1"
      ∧ "s1" ∈ (wsStart ⟨[], [], []⟩ "s1").1.active_connections
      ∧ (wsStart ⟨[], [], []⟩ "s1").1.session_contexts
          = (SysState.mk [] [] []).session_contexts
      ∧ lookupStore (wsStart ⟨[], [], []⟩ "s1").1.session_contexts "s1" = none
      ∧ (wsStart ⟨[], [], []⟩ "s1").2
          = [.error "Session context not initialized. Please call /api/session/context first."]) :=
  ⟨rfl, ws_missing_context_leaks_connection ⟨[], [], []⟩ "s1" rfl⟩

end LoanOS
